import Mathlib

/-!
# Verification of the certificate-generator pipeline

Shallow embedding of `src/generate.py`. The program renders a name onto a
template image for each entry of a list of names:

* `safe_filename` embeds the sanitization expression in
  `generate_certificate` (line 58 of the source):
  `"".join(c for c in name if c.isalnum() or c in (' ', '-', '_')).strip()`.
* `CertificateGenerator` embeds the class of the same name: the fields are
  exactly the attributes set by `__init__`.
* `CertificateGenerator.init` embeds `__init__` together with
  `_validate_paths`; the external world (filesystem stat, font decoding,
  image decoding, directory creation) is an `InitEnv` of oracle functions,
  and the returned trace of `InitEvent`s records the order in which the
  external operations were attempted.
* `CertificateGenerator.calculate_text_position` embeds
  `_calculate_text_position`; Python float division of pixel quantities is
  modelled with `ℚ`.
* `CertificateGenerator.generate_certificate` embeds the method of the same
  name. The filesystem is an explicit association list from paths to images;
  saving is the one fallible operation (the `try`/`except` of the source
  catches exactly the exceptions raised while rendering/saving one name),
  and whether a save succeeds is decided by the `Env.writable` oracle. The
  `line` field of the outcome is the status line the source prints for this
  name.
* `CertificateGenerator.generate_batch` embeds the loop of
  `generate_batch`: one render per name in list order, accumulating the
  success and failure tallies. The Python function reports the final
  tallies and the absolute output directory on stdout (lines 84-86); the
  embedding returns that reported summary as a `BatchResult`.
* `read_names_from_csv` and `main_run` embed the CSV reading function and
  the portion of `main` that sequences reading before construction and
  batch generation.
-/

/-- Model of Python `c.isalnum() or c in (' ', '-', '_')` from line 58 of the
source (restricted to the ASCII alphanumerics that `Char.isAlphanum`
recognises). -/
def allowedChar (c : Char) : Bool :=
  c.isAlphanum || c == ' ' || c == '-' || c == '_'

/-- Model of Python `str.isspace` for a single character: the whitespace
characters that `str.strip()` removes. -/
def pyIsSpace (c : Char) : Bool :=
  c == ' ' || c == '\t' || c == '\n' || c == '\r' || c == '\x0b' || c == '\x0c'

/-- Model of Python `str.strip()`: drop leading and trailing whitespace. -/
def pyStrip (cs : List Char) : List Char :=
  ((cs.dropWhile pyIsSpace).reverse.dropWhile pyIsSpace).reverse

/-- The sanitized filename stem of line 58 of the source:
`"".join(c for c in name if c.isalnum() or c in (' ', '-', '_')).strip()`. -/
def safe_filename (name : String) : String :=
  String.mk (pyStrip (name.toList.filter allowedChar))

/-- A PIL image: its pixel dimensions plus the list of text overlays drawn
onto it (position, text, fill color). The template starts with the overlay
list of the decoded file; `ImageDraw.text` appends an overlay. -/
structure PILImage where
  width : Int
  height : Int
  overlays : List (ℚ × ℚ × String × String)
deriving DecidableEq

/-- `Image.copy()`: a private duplicate of an image value. -/
def PILImage.copy (img : PILImage) : PILImage := img

/-- `ImageDraw.Draw(image); draw.text(xy, text, fill, font)`: draw `text` at
`xy` on the image, producing the updated image. -/
def ImageDraw.text (img : PILImage) (xy : ℚ × ℚ) (text fill : String) : PILImage :=
  { img with overlays := img.overlays ++ [(xy.1, xy.2, text, fill)] }

/-- A decoded font: `textbbox xy text` is the bounding box
`(left, top, right, bottom)` that `draw.textbbox(xy, text, font=...)`
reports for `text` drawn at origin `xy` in this font. -/
structure Font where
  textbbox : Int × Int → String → Int × Int × Int × Int

/-- The filesystem visible to renders: an association list from path strings
to saved images; the most recent save of a path is listed first. -/
abbrev FS := List (String × PILImage)

/-- Look up the current content of path `p`. -/
def FS.read : FS → String → Option PILImage
  | [], _ => none
  | (q, img) :: rest, p => if p = q then some img else FS.read rest p

/-- `image.save(output_path)`: write (create or overwrite) path `p`. -/
def FS.write (fs : FS) (p : String) (img : PILImage) : FS :=
  (p, img) :: fs

/-- Ambient world for render/save operations: whether a save to a given path
succeeds (an unwritable path makes `image.save` raise, which the source
catches), and `Path.absolute()` resolution. -/
structure Env where
  writable : String → Bool
  absolute : String → String

/-- The attributes a `CertificateGenerator` instance holds after `__init__`
(lines 9-19 of the source). -/
structure CertificateGenerator where
  template_path : String
  font_path : String
  font_size : Nat
  font_color : String
  output_dir : String
  font : Font
  template : PILImage
  width : Int
  height : Int

/-- External operations attempted during `__init__`, in order: existence
checks of `_validate_paths`, font decode (`ImageFont.truetype`), template
decode (`Image.open`), output directory creation (`mkdir`). -/
inductive InitEvent
  | statTemplate
  | statFont
  | decodeFont
  | decodeImage
  | mkdirOutput
deriving DecidableEq

/-- Construction failures: `fileNotFound` is the `FileNotFoundError` raised
by `_validate_paths` (the spec's `ResourceNotFound`); `decodeError` a
malformed font/template; `ioError` a failed `mkdir`. -/
inductive InitError
  | fileNotFound (msg : String)
  | decodeError (msg : String)
  | ioError (msg : String)
deriving DecidableEq

/-- Ambient world for `__init__`: path existence, font decoding, image
decoding, and directory creation. -/
structure InitEnv where
  pathExists : String → Bool
  truetype : String → Nat → Option Font
  openImage : String → Option PILImage
  mkdirOk : String → Bool

/-- Embeds `__init__` (lines 7-22) together with `_validate_paths`
(lines 24-29): check that the template path exists, then that the font path
exists — raising `FileNotFoundError` naming the missing path — then decode
the font, decode the template, record its size, and create the output
directory. The second component is the trace of attempted external
operations, in order. -/
def CertificateGenerator.init (ienv : InitEnv) (template_path font_path : String)
    (font_size : Nat) (font_color output_dir : String) :
    Except InitError CertificateGenerator × List InitEvent :=
  if ienv.pathExists template_path = false then
    (.error (.fileNotFound ("Template file not found: " ++ template_path)),
     [.statTemplate])
  else if ienv.pathExists font_path = false then
    (.error (.fileNotFound ("Font file not found: " ++ font_path)),
     [.statTemplate, .statFont])
  else
    match ienv.truetype font_path font_size with
    | none =>
        (.error (.decodeError ("cannot open font resource " ++ font_path)),
         [.statTemplate, .statFont, .decodeFont])
    | some font =>
        match ienv.openImage template_path with
        | none =>
            (.error (.decodeError ("cannot identify image file " ++ template_path)),
             [.statTemplate, .statFont, .decodeFont, .decodeImage])
        | some template =>
            if ienv.mkdirOk output_dir then
              (.ok { template_path := template_path, font_path := font_path,
                     font_size := font_size, font_color := font_color,
                     output_dir := output_dir, font := font, template := template,
                     width := template.width, height := template.height },
               [.statTemplate, .statFont, .decodeFont, .decodeImage, .mkdirOutput])
            else
              (.error (.ioError ("cannot create output directory " ++ output_dir)),
               [.statTemplate, .statFont, .decodeFont, .decodeImage, .mkdirOutput])

/-- Embeds `_calculate_text_position` (lines 31-42): measure the bounding
box of `text` at drawing origin `(0, 0)` in the configured font, and center
the text with the fixed `- 30` vertical bias. Python's float division of
the pixel quantities is modelled in `ℚ`. -/
def CertificateGenerator.calculate_text_position
    (self : CertificateGenerator) (text : String) : ℚ × ℚ :=
  let bbox := self.font.textbbox (0, 0) text
  let text_width : Int := bbox.2.2.1 - bbox.1
  let text_height : Int := bbox.2.2.2 - bbox.2.1
  let x : ℚ := ((self.width : ℚ) - (text_width : ℚ)) / 2
  let y : ℚ := ((self.height : ℚ) - (text_height : ℚ)) / 2 - 30
  (x, y)

/-- The status line printed for a successful render (line 61). -/
def successLine (name : String) : String :=
  "✓ Certificate generated for: " ++ name

/-- The status line printed for a failed render (line 65); the exception
text is modelled by a fixed save-failure message. -/
def failureLine (name : String) : String :=
  "✗ Error generating certificate for " ++ name ++ ": save failed"

/-- Result of one `generate_certificate` call: the returned value
(`output_path` on success, `None` on failure), the generator as left by the
call, the filesystem, and the status line printed for this name. -/
structure RenderOutcome where
  result : Option String
  renderer : CertificateGenerator
  fs : FS
  line : String

/-- Embeds `generate_certificate` (lines 44-66): copy the template, compute
the centered position, draw the name, sanitize the name into the output
path `<output_dir>/<safe_filename>.png`, and save. The `try`/`except`
catches a failure (an unwritable output path) and returns `None` with the
filesystem untouched; the batch is expected to continue. -/
def CertificateGenerator.generate_certificate (self : CertificateGenerator)
    (env : Env) (fs : FS) (name : String) : RenderOutcome :=
  let image := self.template.copy
  let pos := self.calculate_text_position name
  let image := ImageDraw.text image pos name self.font_color
  let safe := safe_filename name
  let output_path := self.output_dir ++ "/" ++ safe ++ ".png"
  if env.writable output_path then
    { result := some output_path, renderer := self,
      fs := FS.write fs output_path image, line := successLine name }
  else
    { result := none, renderer := self, fs := fs, line := failureLine name }

/-- The output path `generate_certificate` saves to for a given name
(line 59 of the source). -/
def outPath (self : CertificateGenerator) (name : String) : String :=
  self.output_dir ++ "/" ++ safe_filename name ++ ".png"

/-- State accumulated by the `for name in names` loop of `generate_batch`
(lines 76-80): the success and failure tallies, the generator, the
filesystem, and the per-name status lines in the order they were printed. -/
structure LoopState where
  successful : Nat
  failed : Nat
  renderer : CertificateGenerator
  fs : FS
  lines : List String

/-- The loop of `generate_batch`, rendered as structural recursion over the
name list: one `generate_certificate` call per name, in order, threading the
generator and the filesystem and tallying each outcome. -/
def runBatch (env : Env) : CertificateGenerator → List String → FS → LoopState
  | r, [], fs => ⟨0, 0, r, fs, []⟩
  | r, name :: rest, fs =>
    let o := r.generate_certificate env fs name
    let s := runBatch env o.renderer rest o.fs
    match o.result with
    | some _ => ⟨s.successful + 1, s.failed, s.renderer, s.fs, o.line :: s.lines⟩
    | none => ⟨s.successful, s.failed + 1, s.renderer, s.fs, o.line :: s.lines⟩

/-- The summary `generate_batch` reports at the end of a run (lines 84-86 of
the source): the tallies and `self.output_dir.absolute()`. -/
structure BatchResult where
  successful : Nat
  failed : Nat
  output_dir : String
deriving DecidableEq

/-- Outcome of a whole `generate_batch` call: the reported summary, the
generator as left by the run, the filesystem, and the per-name status
lines. -/
structure BatchOutcome where
  result : BatchResult
  renderer : CertificateGenerator
  fs : FS
  lines : List String

/-- Embeds `generate_batch` (lines 68-86): run the loop over the names and
report the final tallies together with the absolute output directory. -/
def CertificateGenerator.generate_batch (self : CertificateGenerator)
    (env : Env) (names : List String) (fs : FS) : BatchOutcome :=
  let s := runBatch env self names fs
  ⟨⟨s.successful, s.failed, env.absolute self.output_dir⟩, s.renderer, s.fs, s.lines⟩

/-- A parsed tabular file as `pandas.read_csv` returns it: the columns in
order, each with its list of values. -/
structure DataFrame where
  cols : List (String × List String)

/-- `df.columns`. -/
def DataFrame.columns (df : DataFrame) : List String :=
  df.cols.map Prod.fst

/-- Python `', '.join(...)`. -/
def joinComma : List String → String
  | [] => ""
  | [s] => s
  | s :: rest => s ++ ", " ++ joinComma rest

/-- Ambient world for CSV reading: `pd.read_csv` either parses the file or
fails with a message. -/
structure CsvEnv where
  read_csv : String → Except String DataFrame

/-- Embeds `read_names_from_csv` (lines 88-96): parse the CSV, check that
the requested column is present — raising `ValueError` naming the column
and listing the available columns — and return that column's values. Any
exception, including the `ValueError` itself, is wrapped by the
`except` clause into `"Error reading CSV file: " + str(e)`. -/
def read_names_from_csv (cenv : CsvEnv) (csv_path : String)
    (name_column : String := "name") : Except String (List String) :=
  match cenv.read_csv csv_path with
  | .error e => .error ("Error reading CSV file: " ++ e)
  | .ok df =>
    if name_column ∈ df.columns then
      .ok ((df.cols.lookup name_column).getD [])
    else
      .error ("Error reading CSV file: " ++
        ("Column '" ++ name_column ++ "' not found in CSV file. " ++
         "Available columns: " ++ joinComma df.columns))

/-- `str(e)` of an `InitError`, as `main` would print it. -/
def initErrorMsg : InitError → String
  | .fileNotFound m => m
  | .decodeError m => m
  | .ioError m => m

/-- How a `main_run` finishes when no exception escapes: either the name
list was empty (`main` returns early, line 129), or the batch ran. -/
inductive MainOutcome
  | noNames
  | completed (result : BatchResult)

/-- Embeds the pipeline of `main` (lines 98-143): read the names from the
CSV, stop if there are none, construct the generator, and run the batch.
An error at any stage aborts the run (the `except` of `main` prints it);
the second component is the filesystem after the run. -/
def main_run (cenv : CsvEnv) (ienv : InitEnv) (env : Env)
    (csv_path template_path font_path : String) (font_size : Nat)
    (font_color output_dir : String) (fs : FS) :
    Except String MainOutcome × FS :=
  match read_names_from_csv cenv csv_path with
  | .error e => (.error e, fs)
  | .ok names =>
    if names.isEmpty then (.ok .noNames, fs)
    else
      match (CertificateGenerator.init ienv template_path font_path
               font_size font_color output_dir).1 with
      | .error e => (.error (initErrorMsg e), fs)
      | .ok r =>
        let o := r.generate_batch env names fs
        (.ok (.completed o.result), o.fs)

/-! ## Helper lemmas: filesystem and single renders -/

theorem FS.read_write_self (fs : FS) (p : String) (img : PILImage) :
    FS.read (FS.write fs p img) p = some img := by
  simp [FS.write, FS.read]

theorem FS.read_write_isSome (fs : FS) (p q : String) (img : PILImage)
    (h : (FS.read fs p).isSome = true) :
    (FS.read (FS.write fs q img) p).isSome = true := by
  simp only [FS.write, FS.read]
  split
  · rfl
  · exact h

/-- The working image `generate_certificate` builds for a name: a private
copy of the template with the name drawn at the centered position. -/
def renderedImage (r : CertificateGenerator) (name : String) : PILImage :=
  ImageDraw.text r.template.copy (r.calculate_text_position name) name r.font_color

theorem generate_certificate_writable (env : Env) (r : CertificateGenerator)
    (fs : FS) (name : String) (h : env.writable (outPath r name) = true) :
    r.generate_certificate env fs name =
      ⟨some (outPath r name), r,
       FS.write fs (outPath r name) (renderedImage r name), successLine name⟩ := by
  simp only [CertificateGenerator.generate_certificate, renderedImage, outPath] at h ⊢
  rw [h]
  simp

theorem generate_certificate_unwritable (env : Env) (r : CertificateGenerator)
    (fs : FS) (name : String) (h : env.writable (outPath r name) = false) :
    r.generate_certificate env fs name = ⟨none, r, fs, failureLine name⟩ := by
  simp only [CertificateGenerator.generate_certificate, outPath] at h ⊢
  rw [h]
  simp

theorem generate_certificate_renderer (env : Env) (r : CertificateGenerator)
    (fs : FS) (name : String) :
    (r.generate_certificate env fs name).renderer = r := by
  by_cases h : env.writable (outPath r name)
  · rw [generate_certificate_writable env r fs name h]
  · rw [generate_certificate_unwritable env r fs name (by simpa using h)]

/-- The status line one render attempt for `name` produces. -/
def lineFor (env : Env) (r : CertificateGenerator) (name : String) : String :=
  if env.writable (outPath r name) then successLine name else failureLine name

theorem generate_certificate_line (env : Env) (r : CertificateGenerator)
    (fs : FS) (name : String) :
    (r.generate_certificate env fs name).line = lineFor env r name := by
  by_cases h : env.writable (outPath r name)
  · rw [generate_certificate_writable env r fs name h, lineFor, if_pos h]
  · rw [generate_certificate_unwritable env r fs name (by simpa using h), lineFor,
      if_neg h]

/-! ## Helper lemmas: the batch loop -/

theorem runBatch_cons_writable (env : Env) (r : CertificateGenerator)
    (n : String) (ns : List String) (fs : FS)
    (h : env.writable (outPath r n) = true) :
    runBatch env r (n :: ns) fs =
      ⟨(runBatch env r ns (FS.write fs (outPath r n) (renderedImage r n))).successful + 1,
       (runBatch env r ns (FS.write fs (outPath r n) (renderedImage r n))).failed,
       (runBatch env r ns (FS.write fs (outPath r n) (renderedImage r n))).renderer,
       (runBatch env r ns (FS.write fs (outPath r n) (renderedImage r n))).fs,
       successLine n ::
         (runBatch env r ns (FS.write fs (outPath r n) (renderedImage r n))).lines⟩ := by
  simp only [runBatch, generate_certificate_writable env r fs n h]

theorem runBatch_cons_unwritable (env : Env) (r : CertificateGenerator)
    (n : String) (ns : List String) (fs : FS)
    (h : env.writable (outPath r n) = false) :
    runBatch env r (n :: ns) fs =
      ⟨(runBatch env r ns fs).successful,
       (runBatch env r ns fs).failed + 1,
       (runBatch env r ns fs).renderer,
       (runBatch env r ns fs).fs,
       failureLine n :: (runBatch env r ns fs).lines⟩ := by
  simp only [runBatch, generate_certificate_unwritable env r fs n h]

theorem runBatch_renderer (env : Env) (r : CertificateGenerator)
    (ns : List String) : ∀ fs : FS, (runBatch env r ns fs).renderer = r := by
  induction ns with
  | nil => intro fs; rfl
  | cons n ns ih =>
    intro fs
    by_cases h : env.writable (outPath r n)
    · rw [runBatch_cons_writable env r n ns fs h]
      exact ih _
    · rw [runBatch_cons_unwritable env r n ns fs (by simpa using h)]
      exact ih _

theorem runBatch_counts_lines (env : Env) (r : CertificateGenerator)
    (ns : List String) : ∀ fs : FS,
    (runBatch env r ns fs).successful + (runBatch env r ns fs).failed = ns.length ∧
    (runBatch env r ns fs).lines = ns.map (lineFor env r) := by
  induction ns with
  | nil => intro fs; exact ⟨rfl, rfl⟩
  | cons n ns ih =>
    intro fs
    by_cases h : env.writable (outPath r n)
    · rw [runBatch_cons_writable env r n ns fs h]
      obtain ⟨hc, hl⟩ := ih (FS.write fs (outPath r n) (renderedImage r n))
      dsimp only [List.map_cons, List.length_cons]
      exact ⟨by omega, by simp [hl, lineFor, h]⟩
    · have h' : env.writable (outPath r n) = false := by simpa using h
      rw [runBatch_cons_unwritable env r n ns fs h']
      obtain ⟨hc, hl⟩ := ih fs
      dsimp only [List.map_cons, List.length_cons]
      exact ⟨by omega, by simp [hl, lineFor, h']⟩

/-! ## The claims -/

/-- C1: `generate_batch` reports, for every sequence of names, the success
and failure tallies together with the absolute output directory path; for
the empty sequence the tallies are `successful = 0` and `failed = 0`, no
file is written (the filesystem is returned unchanged), and no error is
raised (the embedded batch is a total function with no error outcome). -/
theorem generate_batch_empty_spec (env : Env) (r : CertificateGenerator) (fs : FS) :
    (∀ names : List String,
      (r.generate_batch env names fs).result.output_dir = env.absolute r.output_dir) ∧
    (r.generate_batch env [] fs).result = ⟨0, 0, env.absolute r.output_dir⟩ ∧
    (r.generate_batch env [] fs).fs = fs ∧
    (r.generate_batch env [] fs).lines = [] :=
  ⟨fun _ => rfl, rfl, rfl, rfl⟩

/-- C5: `_calculate_text_position` returns exactly
`x = (template_width - text_width) / 2` and
`y = (template_height - text_height) / 2 - 30`, where the text width and
height are the right-minus-left and bottom-minus-top extents of the
bounding box measured at drawing origin `(0, 0)` in the configured font. -/
theorem calculate_text_position_formula (r : CertificateGenerator) (text : String) :
    r.calculate_text_position text =
      (((r.width : ℚ) -
          (((r.font.textbbox (0, 0) text).2.2.1 - (r.font.textbbox (0, 0) text).1 : Int) : ℚ)) / 2,
       ((r.height : ℚ) -
          (((r.font.textbbox (0, 0) text).2.2.2 - (r.font.textbbox (0, 0) text).2.1 : Int) : ℚ)) / 2
         - 30) := rfl

/-- C9: a render never mutates the shared template: both a single
`generate_certificate` call and a whole `generate_batch` run return the
generator — in particular its template image and recorded width and
height — exactly as it was, so every subsequent render observes the
template loaded at construction. -/
theorem template_never_mutated (env : Env) (r : CertificateGenerator) (fs : FS)
    (name : String) (names : List String) :
    (r.generate_certificate env fs name).renderer = r ∧
    (r.generate_batch env names fs).renderer = r ∧
    (r.generate_batch env names fs).renderer.template = r.template ∧
    (r.generate_batch env names fs).renderer.width = r.width ∧
    (r.generate_batch env names fs).renderer.height = r.height := by
  have hb : (r.generate_batch env names fs).renderer = r := runBatch_renderer env r names fs
  exact ⟨generate_certificate_renderer env r fs name, hb, by rw [hb], by rw [hb], by rw [hb]⟩

/-- C10: `generate_batch` makes exactly one render attempt per element of
the name list, in list order — the per-name status lines are the map of the
per-name outcome line over the list — and the final tallies satisfy
`successful + failed = length of the input`. -/
theorem batch_one_attempt_per_name (env : Env) (r : CertificateGenerator)
    (names : List String) (fs : FS) :
    (r.generate_batch env names fs).result.successful +
        (r.generate_batch env names fs).result.failed = names.length ∧
    (r.generate_batch env names fs).lines = names.map (lineFor env r) :=
  runBatch_counts_lines env r names fs

/-! ## Helper lemmas: sanitization -/

theorem head?_dropWhile_not (p : Char → Bool) :
    ∀ (l : List Char) (c : Char), (l.dropWhile p).head? = some c → p c = false := by
  intro l
  induction l with
  | nil => intro c h; simp [List.dropWhile] at h
  | cons a l ih =>
    intro c h
    rw [List.dropWhile_cons] at h
    by_cases hp : p a
    · rw [if_pos hp] at h
      exact ih c h
    · rw [if_neg hp] at h
      simp only [List.head?_cons, Option.some.injEq] at h
      rw [← h]
      simpa using hp

theorem mem_pyStrip {c : Char} {l : List Char} (h : c ∈ pyStrip l) : c ∈ l := by
  unfold pyStrip at h
  rw [List.mem_reverse] at h
  have h1 := (List.dropWhile_sublist pyIsSpace).mem h
  rw [List.mem_reverse] at h1
  exact (List.dropWhile_sublist pyIsSpace).mem h1

theorem getLast?_pyStrip (l : List Char) (c : Char)
    (h : (pyStrip l).getLast? = some c) : pyIsSpace c = false := by
  unfold pyStrip at h
  rw [List.getLast?_reverse] at h
  exact head?_dropWhile_not pyIsSpace _ c h

theorem head?_pyStrip (l : List Char) (c : Char)
    (h : (pyStrip l).head? = some c) : pyIsSpace c = false := by
  unfold pyStrip at h
  rw [List.head?_reverse] at h
  obtain ⟨t, ht⟩ := List.dropWhile_suffix (l := (l.dropWhile pyIsSpace).reverse) pyIsSpace
  have hlast : (l.dropWhile pyIsSpace).reverse.getLast? = some c := by
    rw [← ht, List.getLast?_append, h]
    rfl
  rw [List.getLast?_reverse] at hlast
  exact head?_dropWhile_not pyIsSpace l c hlast

/-- C3: the sanitized filename stem contains only characters of the allowed
set (alphanumerics, space, hyphen, underscore) and has no leading or
trailing whitespace; in particular `"O'Brien, Jr.!"` sanitizes to the stem
`OBrien Jr` and so to the output filename `OBrien Jr.png`. -/
theorem safe_filename_charset (name : String) :
    (∀ c ∈ (safe_filename name).toList, allowedChar c = true) ∧
    (∀ c, (safe_filename name).toList.head? = some c → pyIsSpace c = false) ∧
    (∀ c, (safe_filename name).toList.getLast? = some c → pyIsSpace c = false) ∧
    safe_filename "O'Brien, Jr.!" = "OBrien Jr" ∧
    safe_filename "O'Brien, Jr.!" ++ ".png" = "OBrien Jr.png" := by
  refine ⟨?_, ?_, ?_, by decide, by decide⟩
  · intro c hc
    have h1 : c ∈ name.toList.filter allowedChar := mem_pyStrip hc
    exact (List.mem_filter.mp h1).2
  · intro c h
    exact head?_pyStrip (name.toList.filter allowedChar) c h
  · intro c h
    exact getLast?_pyStrip (name.toList.filter allowedChar) c h

/-- C3 witness: the sanitized `"O'Brien, Jr.!"` has head `O` and last
character `r`, both in the allowed set and neither whitespace. -/
theorem safe_filename_charset_witness :
    allowedChar 'O' = true ∧ pyIsSpace 'O' = false ∧ pyIsSpace 'r' = false :=
  ⟨(safe_filename_charset "O'Brien, Jr.!").1 'O' (by decide),
   (safe_filename_charset "O'Brien, Jr.!").2.1 'O' (by decide),
   (safe_filename_charset "O'Brien, Jr.!").2.2.1 'r' (by decide)⟩

/-- The text width `_calculate_text_position` measures for a text: the
right-minus-left extent of the bounding box at origin `(0, 0)`. -/
def text_width (r : CertificateGenerator) (text : String) : Int :=
  (r.font.textbbox (0, 0) text).2.2.1 - (r.font.textbbox (0, 0) text).1

/-- C6: when the measured text width is at most the template width, the
computed `x` satisfies `x ≥ 0` and `x + text_width ≤ template_width`; when
the text is wider than the template, `x` is negative (and the function
still returns it — overflow is not an error). -/
theorem position_horizontal_fit (r : CertificateGenerator) (text : String) :
    (text_width r text ≤ r.width →
      0 ≤ (r.calculate_text_position text).1 ∧
      (r.calculate_text_position text).1 + (text_width r text : ℚ) ≤ (r.width : ℚ)) ∧
    (r.width < text_width r text → (r.calculate_text_position text).1 < 0) := by
  have hx : (r.calculate_text_position text).1 =
      ((r.width : ℚ) - ((text_width r text : Int) : ℚ)) / 2 := rfl
  constructor
  · intro h
    have h' : ((text_width r text : Int) : ℚ) ≤ ((r.width : Int) : ℚ) := by exact_mod_cast h
    rw [hx]
    constructor <;> linarith
  · intro h
    have h' : ((r.width : Int) : ℚ) < ((text_width r text : Int) : ℚ) := by exact_mod_cast h
    rw [hx]
    linarith

/-- A concrete font for witnesses: every text measures 100×50 from the
origin. -/
def fontFit : Font := ⟨fun _ _ => (0, 0, 100, 50)⟩

/-- A concrete font for witnesses whose measured text is wider than the
1000-pixel template. -/
def fontWide : Font := ⟨fun _ _ => (0, 0, 1200, 50)⟩

/-- A concrete generator over a 1000×400 template, for witnesses. -/
def genOf (f : Font) : CertificateGenerator :=
  ⟨"template.png", "font.ttf", 180, "#86529f", "out", f, ⟨1000, 400, []⟩, 1000, 400⟩

/-- An environment for witnesses where every path is writable. -/
def envAll : Env := ⟨fun _ => true, fun p => "/abs/" ++ p⟩

/-- C6 witness: with the 100-pixel-wide font the text fits at `x = 450`,
and with the 1200-pixel-wide font `x` is negative. -/
theorem position_horizontal_fit_witness :
    (0 ≤ ((genOf fontFit).calculate_text_position "Alice Smith").1 ∧
      ((genOf fontFit).calculate_text_position "Alice Smith").1 +
        (text_width (genOf fontFit) "Alice Smith" : ℚ) ≤ ((genOf fontFit).width : ℚ)) ∧
    ((genOf fontWide).calculate_text_position "Alice Smith").1 < 0 :=
  ⟨(position_horizontal_fit (genOf fontFit) "Alice Smith").1 (by decide),
   (position_horizontal_fit (genOf fontWide) "Alice Smith").2 (by decide)⟩

/-- C2: a name whose sanitized stem is empty still renders and saves
successfully — `generate_certificate` returns the output path
`<output_dir>/.png` and the file literally named `.png` exists in the
output directory afterwards; the empty stem is not treated as an error. -/
theorem empty_stem_still_saves (env : Env) (r : CertificateGenerator) (fs : FS)
    (name : String) (hempty : safe_filename name = "")
    (hw : env.writable (r.output_dir ++ "/" ++ ".png") = true) :
    (r.generate_certificate env fs name).result =
      some (r.output_dir ++ "/" ++ ".png") ∧
    (FS.read (r.generate_certificate env fs name).fs
      (r.output_dir ++ "/" ++ ".png")).isSome = true := by
  have hpath : outPath r name = r.output_dir ++ "/" ++ ".png" := by
    rw [outPath, hempty, String.append_empty]
  rw [generate_certificate_writable env r fs name (by rw [hpath]; exact hw)]
  rw [hpath]
  exact ⟨rfl, by rw [FS.read_write_self]; rfl⟩

/-- C2 witness: `"!!!"` sanitizes to the empty stem, and its render still
returns the path `out/.png` and saves a file there. -/
theorem empty_stem_still_saves_witness :
    ((genOf fontFit).generate_certificate envAll [] "!!!").result =
      some ("out" ++ "/" ++ ".png") ∧
    (FS.read ((genOf fontFit).generate_certificate envAll [] "!!!").fs
      ("out" ++ "/" ++ ".png")).isSome = true :=
  empty_stem_still_saves envAll (genOf fontFit) [] "!!!" (by decide) rfl

/-! ## Helper lemmas: batch isolation -/

theorem runBatch_all_writable (env : Env) (r : CertificateGenerator) :
    ∀ (ns : List String) (fs : FS),
      (∀ n ∈ ns, env.writable (outPath r n) = true) →
      (runBatch env r ns fs).successful = ns.length ∧
      (runBatch env r ns fs).failed = 0 ∧
      (runBatch env r ns fs).lines.length = ns.length ∧
      (∀ p, (FS.read fs p).isSome = true →
        (FS.read (runBatch env r ns fs).fs p).isSome = true) ∧
      (∀ n ∈ ns, (FS.read (runBatch env r ns fs).fs (outPath r n)).isSome = true) := by
  intro ns
  induction ns with
  | nil =>
    intro fs _
    exact ⟨rfl, rfl, rfl, fun p hp => hp, fun n hn => absurd hn (List.not_mem_nil n)⟩
  | cons n ns ih =>
    intro fs h
    have hn : env.writable (outPath r n) = true := h n (List.mem_cons_self n ns)
    have hns : ∀ m ∈ ns, env.writable (outPath r m) = true :=
      fun m hm => h m (List.mem_cons_of_mem n hm)
    rw [runBatch_cons_writable env r n ns fs hn]
    obtain ⟨hs, hf, hl, hpres, hmem⟩ :=
      ih (FS.write fs (outPath r n) (renderedImage r n)) hns
    dsimp only [List.length_cons]
    refine ⟨by omega, hf, by simp [hl], ?_, ?_⟩
    · intro p hp
      exact hpres p (FS.read_write_isSome fs p (outPath r n) (renderedImage r n) hp)
    · intro m hm
      rcases List.mem_cons.mp hm with hm | hm
      · subst hm
        exact hpres (outPath r m) (by rw [FS.read_write_self]; rfl)
      · exact hmem m hm

theorem runBatch_one_bad (env : Env) (r : CertificateGenerator) (bad : String)
    (hbad : env.writable (outPath r bad) = false) :
    ∀ (l₁ l₂ : List String) (fs : FS),
      (∀ n ∈ l₁ ++ l₂, env.writable (outPath r n) = true) →
      (runBatch env r (l₁ ++ bad :: l₂) fs).successful = l₁.length + l₂.length ∧
      (runBatch env r (l₁ ++ bad :: l₂) fs).failed = 1 ∧
      (runBatch env r (l₁ ++ bad :: l₂) fs).lines.length = l₁.length + 1 + l₂.length ∧
      (∀ p, (FS.read fs p).isSome = true →
        (FS.read (runBatch env r (l₁ ++ bad :: l₂) fs).fs p).isSome = true) ∧
      (∀ n ∈ l₁ ++ l₂,
        (FS.read (runBatch env r (l₁ ++ bad :: l₂) fs).fs (outPath r n)).isSome = true) := by
  intro l₁
  induction l₁ with
  | nil =>
    intro l₂ fs h
    simp only [List.nil_append] at h ⊢
    rw [runBatch_cons_unwritable env r bad l₂ fs hbad]
    obtain ⟨hs, hf, hl, hpres, hmem⟩ := runBatch_all_writable env r l₂ fs h
    refine ⟨by simpa using hs, by simp [hf], ?_, hpres, hmem⟩
    simp only [List.length_cons, List.length_nil, hl]
    omega
  | cons a l₁ ih =>
    intro l₂ fs h
    have ha : env.writable (outPath r a) = true := h a (by simp)
    have hrest : ∀ n ∈ l₁ ++ l₂, env.writable (outPath r n) = true :=
      fun n hn => h n (by simp [List.mem_append] at hn ⊢; tauto)
    rw [List.cons_append, runBatch_cons_writable env r a (l₁ ++ bad :: l₂) fs ha]
    obtain ⟨hs, hf, hl, hpres, hmem⟩ :=
      ih l₂ (FS.write fs (outPath r a) (renderedImage r a)) hrest
    dsimp only [List.length_cons]
    refine ⟨by omega, hf, by simp [hl]; omega, ?_, ?_⟩
    · intro p hp
      exact hpres p (FS.read_write_isSome fs p (outPath r a) (renderedImage r a) hp)
    · intro m hm
      rcases List.mem_cons.mp hm with hm | hm
      · subst hm
        exact hpres (outPath r m) (by rw [FS.read_write_self]; rfl)
      · exact hmem m hm

/-- C4: per-name failures are isolated. If exactly one name of the batch
(`bad`, whose output path is unwritable) fails and every other name's save
succeeds, then a render attempt is still made for every name (one status
line per name), every other name's output file exists afterwards, and the
reported tallies are `successful = N - 1` and `failed = 1`. -/
theorem batch_failure_isolation (env : Env) (r : CertificateGenerator) (fs : FS)
    (l₁ l₂ : List String) (bad : String)
    (hgood : ∀ n ∈ l₁ ++ l₂, env.writable (outPath r n) = true)
    (hbad : env.writable (outPath r bad) = false) :
    (r.generate_batch env (l₁ ++ bad :: l₂) fs).result.successful =
      l₁.length + l₂.length ∧
    (r.generate_batch env (l₁ ++ bad :: l₂) fs).result.failed = 1 ∧
    (r.generate_batch env (l₁ ++ bad :: l₂) fs).lines.length =
      (l₁ ++ bad :: l₂).length ∧
    ∀ n ∈ l₁ ++ l₂,
      (FS.read (r.generate_batch env (l₁ ++ bad :: l₂) fs).fs (outPath r n)).isSome
        = true := by
  obtain ⟨hs, hf, hl, _, hmem⟩ := runBatch_one_bad env r bad hbad l₁ l₂ fs hgood
  refine ⟨hs, hf, ?_, hmem⟩
  show (runBatch env r (l₁ ++ bad :: l₂) fs).lines.length = _
  rw [hl]
  simp
  omega

/-- An environment for the C4 witness: every path except `out/Bob.png` is
writable. -/
def envNoBob : Env := ⟨fun p => !(p == "out" ++ "/" ++ "Bob" ++ ".png"), fun p => "/abs/" ++ p⟩

/-- C4 witness: in the batch `["Alice", "Bob", "Carol"]` where only Bob's
output path is unwritable, the tallies are `successful = 2`, `failed = 1`,
three attempts are made, and Alice's and Carol's files exist. -/
theorem batch_failure_isolation_witness :
    ((genOf fontFit).generate_batch envNoBob (["Alice"] ++ "Bob" :: ["Carol"]) []).result.successful = 1 + 1 ∧
    ((genOf fontFit).generate_batch envNoBob (["Alice"] ++ "Bob" :: ["Carol"]) []).result.failed = 1 ∧
    ((genOf fontFit).generate_batch envNoBob (["Alice"] ++ "Bob" :: ["Carol"]) []).lines.length =
      (["Alice"] ++ "Bob" :: ["Carol"]).length ∧
    ∀ n ∈ ["Alice"] ++ ["Carol"],
      (FS.read ((genOf fontFit).generate_batch envNoBob (["Alice"] ++ "Bob" :: ["Carol"]) []).fs
        (outPath (genOf fontFit) n)).isSome = true :=
  batch_failure_isolation envNoBob (genOf fontFit) [] ["Alice"] ["Carol"] "Bob"
    (by decide) (by decide)

/-- C7: construction fails with the `FileNotFoundError` (`ResourceNotFound`)
naming the missing path whenever the template file or the font file does
not exist, and in either case neither the font nor the template decode is
ever attempted — validation precedes decoding. -/
theorem init_missing_resource (ienv : InitEnv) (template_path font_path : String)
    (font_size : Nat) (font_color output_dir : String) :
    (ienv.pathExists template_path = false →
      (CertificateGenerator.init ienv template_path font_path font_size
          font_color output_dir).1 =
        .error (.fileNotFound ("Template file not found: " ++ template_path)) ∧
      InitEvent.decodeFont ∉ (CertificateGenerator.init ienv template_path font_path
          font_size font_color output_dir).2 ∧
      InitEvent.decodeImage ∉ (CertificateGenerator.init ienv template_path font_path
          font_size font_color output_dir).2) ∧
    (ienv.pathExists template_path = true → ienv.pathExists font_path = false →
      (CertificateGenerator.init ienv template_path font_path font_size
          font_color output_dir).1 =
        .error (.fileNotFound ("Font file not found: " ++ font_path)) ∧
      InitEvent.decodeFont ∉ (CertificateGenerator.init ienv template_path font_path
          font_size font_color output_dir).2 ∧
      InitEvent.decodeImage ∉ (CertificateGenerator.init ienv template_path font_path
          font_size font_color output_dir).2) := by
  refine ⟨fun h => ?_, fun h1 h2 => ?_⟩
  · simp [CertificateGenerator.init, h]
  · simp [CertificateGenerator.init, h1, h2]

/-- An `InitEnv` for witnesses where no path exists. -/
def ienvNone : InitEnv := ⟨fun _ => false, fun _ _ => none, fun _ => none, fun _ => false⟩

/-- An `InitEnv` for witnesses where only `template.png` exists. -/
def ienvTemplateOnly : InitEnv :=
  ⟨fun p => p == "template.png", fun _ _ => none, fun _ => none, fun _ => false⟩

/-- C7 witness: with no existing files, construction fails naming the
template path; with only the template existing, it fails naming the font
path; neither run attempts a decode. -/
theorem init_missing_resource_witness :
    ((CertificateGenerator.init ienvNone "template.png" "font.ttf" 180 "#86529f" "out").1 =
        .error (.fileNotFound ("Template file not found: " ++ "template.png")) ∧
      InitEvent.decodeFont ∉
        (CertificateGenerator.init ienvNone "template.png" "font.ttf" 180 "#86529f" "out").2 ∧
      InitEvent.decodeImage ∉
        (CertificateGenerator.init ienvNone "template.png" "font.ttf" 180 "#86529f" "out").2) ∧
    ((CertificateGenerator.init ienvTemplateOnly "template.png" "font.ttf" 180 "#86529f" "out").1 =
        .error (.fileNotFound ("Font file not found: " ++ "font.ttf")) ∧
      InitEvent.decodeFont ∉
        (CertificateGenerator.init ienvTemplateOnly "template.png" "font.ttf" 180 "#86529f" "out").2 ∧
      InitEvent.decodeImage ∉
        (CertificateGenerator.init ienvTemplateOnly "template.png" "font.ttf" 180 "#86529f" "out").2) :=
  ⟨(init_missing_resource ienvNone "template.png" "font.ttf" 180 "#86529f" "out").1 rfl,
   (init_missing_resource ienvTemplateOnly "template.png" "font.ttf" 180 "#86529f" "out").2
     (by decide) (by decide)⟩

/-- C8: when the requested column is absent from the parsed data source,
`read_names_from_csv` fails with the wrapped `ValueError` whose message
names the requested column and lists the available columns, and the `main`
pipeline aborts on that error before any rendering — the filesystem is
returned unchanged. -/
theorem missing_column_error (cenv : CsvEnv) (ienv : InitEnv) (env : Env)
    (csv_path template_path font_path : String) (font_size : Nat)
    (font_color output_dir : String) (fs : FS) (df : DataFrame)
    (hread : cenv.read_csv csv_path = .ok df)
    (hmiss : "name" ∉ df.columns) :
    read_names_from_csv cenv csv_path "name" =
      .error ("Error reading CSV file: " ++
        ("Column '" ++ "name" ++ "' not found in CSV file. " ++
         "Available columns: " ++ joinComma df.columns)) ∧
    main_run cenv ienv env csv_path template_path font_path font_size
        font_color output_dir fs =
      (.error ("Error reading CSV file: " ++
        ("Column '" ++ "name" ++ "' not found in CSV file. " ++
         "Available columns: " ++ joinComma df.columns)), fs) := by
  have h1 : read_names_from_csv cenv csv_path "name" =
      .error ("Error reading CSV file: " ++
        ("Column '" ++ "name" ++ "' not found in CSV file. " ++
         "Available columns: " ++ joinComma df.columns)) := by
    simp [read_names_from_csv, hread, hmiss]
  refine ⟨h1, ?_⟩
  rw [main_run, h1]

/-- A parsed CSV for witnesses with a single column `id`. -/
def dfNoName : DataFrame := ⟨[("id", ["1", "2"])]⟩

/-- A `CsvEnv` for witnesses that parses every path to `dfNoName`. -/
def cenvNoName : CsvEnv := ⟨fun _ => .ok dfNoName⟩

/-- C8 witness: reading `names.csv` whose only column is `id` fails with
the message naming column `name` and listing `id`, and the pipeline leaves
the filesystem unchanged. -/
theorem missing_column_error_witness :
    read_names_from_csv cenvNoName "names.csv" "name" =
      .error ("Error reading CSV file: " ++
        ("Column '" ++ "name" ++ "' not found in CSV file. " ++
         "Available columns: " ++ joinComma dfNoName.columns)) ∧
    main_run cenvNoName ienvNone envAll "names.csv" "template.png" "font.ttf" 180
        "#86529f" "out" [] =
      (.error ("Error reading CSV file: " ++
        ("Column '" ++ "name" ++ "' not found in CSV file. " ++
         "Available columns: " ++ joinComma dfNoName.columns)), []) :=
  missing_column_error cenvNoName ienvNone envAll "names.csv" "template.png"
    "font.ttf" 180 "#86529f" "out" [] dfNoName rfl (by decide)
